import Mathlib

/-!
Verification of the iterative fix-verify-review orchestration loop of the
code-agent repository: a shallow embedding of `src/ci/checker.py`,
`src/main.py` (orchestration loop, CI runner, CI command resolver),
`src/agents/reviewer.py` and `src/github/branches.py`, with theorems about
the claims of the specification.
-/

namespace CodeAgent

/-! ## Small Python-style string helpers -/

/-- Scan for `needle` starting at each position of the haystack. -/
def containsSubAux (needle : List Char) : List Char → Bool
  | [] => needle.isPrefixOf []
  | c :: rest => needle.isPrefixOf (c :: rest) || containsSubAux needle rest

/-- Substring containment, modelling Python's `needle in hay`. -/
def containsSubstr (hay needle : String) : Bool :=
  containsSubAux needle.toList hay.toList

/-- Python `str.endswith`. -/
def pyEndsWith (s suf : String) : Bool :=
  suf.toList.isSuffixOf s.toList

/-- Models Python `str.lower` on one character, restricted to the alphabets
the source actually matches against (ASCII letters and Russian Cyrillic). -/
def pyCharLower (c : Char) : Char :=
  if 0x410 ≤ c.toNat ∧ c.toNat ≤ 0x42F then Char.ofNat (c.toNat + 0x20)
  else if c.toNat = 0x401 then Char.ofNat 0x451
  else c.toLower

/-- Models Python `str.lower` (ASCII plus Cyrillic, see `pyCharLower`). -/
def pyLower (s : String) : String :=
  String.mk (s.toList.map pyCharLower)

/-- Python truthiness of an optional string (`None` and `""` are falsy). -/
def truthyS : Option String → Bool
  | none => false
  | some s => !s.isEmpty

/-! ## CI summaries and the comparator (`src/ci/checker.py`) -/

/-- The `summary` dict produced by `run_ci_commands`: each flag is a Python
value that is `True`, `False` or `None` (tri-state). -/
structure CISummary where
  build_passed : Option Bool
  test_passed : Option Bool
  quality_passed : Option Bool
deriving Repr, DecidableEq

/-- The dict returned by `check_ci_results_match`.  The Python key `match`
is called `matched` here because `match` is a Lean keyword. -/
structure CIMatchResult where
  matched : Bool
  reason : String
  issues : List String
  recommendations : List String
deriving Repr, DecidableEq

/-- The guarded per-check test of `check_ci_results_match`:
`before is not None and after is not None` and then `before and not after`. -/
def regressed : Option Bool → Option Bool → Bool
  | some b, some a => b && !a
  | _, _ => false

def syntaxRegressionIssue : String :=
  "Проверка синтаксиса проходила ДО изменений, но НЕ проходит ПОСЛЕ изменений"

def syntaxRegressionRec : String :=
  "Исправить синтаксические ошибки, чтобы восстановить работоспособность проекта"

def testRegressionIssue : String :=
  "Тесты проходили ДО изменений, но НЕ проходят ПОСЛЕ изменений"

def testRegressionRec : String :=
  "Исправить падающие тесты, чтобы восстановить работоспособность"

/-- The `issues` list accumulated by `check_ci_results_match` (syntax check
first, then tests; improvements and unknown sides contribute nothing). -/
def ci_issues (b a : CISummary) : List String :=
  (if regressed b.build_passed a.build_passed then [syntaxRegressionIssue] else []) ++
  (if regressed b.test_passed a.test_passed then [testRegressionIssue] else [])

/-- The `recommendations` list accumulated by `check_ci_results_match`. -/
def ci_recommendations (b a : CISummary) : List String :=
  (if regressed b.build_passed a.build_passed then [syntaxRegressionRec] else []) ++
  (if regressed b.test_passed a.test_passed then [testRegressionRec] else [])

/-- Function `check_ci_results_match` from `src/ci/checker.py`, over the two
summaries (the Python wrapper extracts `.get('summary', {})` first). -/
def check_ci_results_match (ci_before ci_after : CISummary) : CIMatchResult :=
  if (ci_issues ci_before ci_after).isEmpty then
    { matched := true
      reason := "Результаты CI совпадают или улучшились"
      issues := []
      recommendations := [] }
  else
    { matched := false
      reason := String.intercalate "; " (ci_issues ci_before ci_after)
      issues := ci_issues ci_before ci_after
      recommendations := ci_recommendations ci_before ci_after }

theorem regressed_iff (b a : Option Bool) :
    regressed b a = true ↔ b = some true ∧ a = some false := by
  cases b with
  | none => simp [regressed]
  | some bv =>
    cases a with
    | none => simp [regressed]
    | some av => cases bv <;> cases av <;> simp [regressed]

theorem ci_issues_isEmpty (b a : CISummary) :
    (ci_issues b a).isEmpty =
      (!regressed b.build_passed a.build_passed &&
       !regressed b.test_passed a.test_passed) := by
  unfold ci_issues
  cases regressed b.build_passed a.build_passed <;>
    cases regressed b.test_passed a.test_passed <;> simp

/-- C2: the comparator reports a non-match (a regression) exactly when the
syntax check or the test check went from passing to failing, with unknown
sides excluded; the quality flag never affects the result. -/
theorem claim_C2_comparator_regression_rule (b a : CISummary) :
    ((check_ci_results_match b a).matched = false ↔
      (b.build_passed = some true ∧ a.build_passed = some false) ∨
      (b.test_passed = some true ∧ a.test_passed = some false)) ∧
    (∀ qb qa : Option Bool,
      check_ci_results_match { b with quality_passed := qb }
          { a with quality_passed := qa } =
        check_ci_results_match b a) := by
  constructor
  · unfold check_ci_results_match
    rw [← regressed_iff, ← regressed_iff]
    rcases hb : regressed b.build_passed a.build_passed <;>
      rcases ht : regressed b.test_passed a.test_passed <;>
        simp [ci_issues_isEmpty, hb, ht]
  · intro qb qa
    cases b
    cases a
    rfl

/-! ## Reviewer verdicts (`src/agents/reviewer.py`) -/

/-- The dict returned by `ReviewerAgent.process` on its non-exception paths
(and by the synthetic rejection in the orchestration loop). -/
structure ReviewResult where
  success : Bool
  approved : Bool
  reason : String
  issues : List String
  recommendations : List String
deriving Repr, DecidableEq

/-- The `json.JSONDecodeError` fallback of `ReviewerAgent.process`
(lines 133-144): scans the lowered response text for an approval keyword
and returns a successful verdict with empty issue lists. -/
def reviewer_fallback (review_text : String) : ReviewResult :=
  { success := true
    approved := containsSubstr (pyLower review_text) "approved" ||
                containsSubstr (pyLower review_text) "принято" ||
                containsSubstr (pyLower review_text) "одобрено"
    reason := String.mk (review_text.toList.take 500)
    issues := []
    recommendations := [] }

/-! ## CI execution (`run_ci_commands`, src/main.py lines 1422-1577) -/

/-- One entry of the `results` dict: `{'success': …, 'output': …, 'error': …}`
with `success` left as `None` when the command is not configured. -/
structure CheckRun where
  success : Option Bool
  output : String
  error : String
deriving Repr, DecidableEq

/-- The `results` dict of `run_ci_commands`. -/
structure CIRunResults where
  build : CheckRun
  test : CheckRun
  quality : CheckRun
deriving Repr, DecidableEq

/-- The dict returned by `run_ci_commands` on its success path. -/
structure CIRunReport where
  success : Bool
  results : CIRunResults
  summary : CISummary
deriving Repr, DecidableEq

/-- The resolved command set (`build_command` holds the syntax-check
command for backwards compatibility, as in the source). -/
structure CICommands where
  build_command : Option String
  test_command : Option String
  quality_command : Option String
  working_directory : String
deriving Repr, DecidableEq

/-- Executes one optional command: the source only runs a command when the
dict value is truthy, otherwise the initial `{'success': None, …}` entry is
kept.  `exec` models `subprocess.run`, giving (returncode, stdout, stderr). -/
def runCheck (cmd : Option String) (exec : String → Int × String × String) : CheckRun :=
  match cmd with
  | none => { success := none, output := "", error := "" }
  | some c =>
    if c.isEmpty then { success := none, output := "", error := "" }
    else
      let r := exec c
      { success := some (decide (r.1 = 0)), output := r.2.1, error := r.2.2 }

/-- The summary construction of `run_ci_commands` (lines 1551-1555): a
`None` build/test result is coerced to `True`, quality is kept as-is. -/
def run_ci_summary (results : CIRunResults) : CISummary :=
  { build_passed := some (results.build.success.getD true)
    test_passed := some (results.test.success.getD true)
    quality_passed := results.quality.success }

/-- The success path of `run_ci_commands`: run each configured command and
assemble the results and the summary. -/
def run_ci_commands (cmds : CICommands) (exec : String → Int × String × String) :
    CIRunReport :=
  let results : CIRunResults :=
    { build := runCheck cmds.build_command exec
      test := runCheck cmds.test_command exec
      quality := runCheck cmds.quality_command exec }
  { success := true, results := results, summary := run_ci_summary results }

theorem runCheck_not_configured (cmd : Option String)
    (exec : String → Int × String × String) (h : truthyS cmd = false) :
    runCheck cmd exec = { success := none, output := "", error := "" } := by
  cases cmd with
  | none => rfl
  | some c =>
    simp only [truthyS, Bool.not_eq_false'] at h
    simp [runCheck, h]

/-- C10: on a non-JSON reviewer response the fallback returns
`success = true`, empty issue lists, and approval decided purely by keyword
containment in the lowered text — so any text containing "approved"
(such as "not approved") yields an approving verdict. -/
theorem claim_C10_fallback_keyword_approval (t : String) :
    (reviewer_fallback t).success = true ∧
    (reviewer_fallback t).issues = [] ∧
    (reviewer_fallback t).recommendations = [] ∧
    (reviewer_fallback t).approved =
      (containsSubstr (pyLower t) "approved" ||
       containsSubstr (pyLower t) "принято" ||
       containsSubstr (pyLower t) "одобрено") ∧
    (containsSubstr (pyLower t) "approved" = true →
      (reviewer_fallback t).approved = true) := by
  refine ⟨rfl, rfl, rfl, rfl, ?_⟩
  intro h
  simp [reviewer_fallback, h]

/-- C10 witness: the fallback on the literal text "not approved" produces
an approving verdict. -/
theorem claim_C10_fallback_keyword_approval_witness :
    (reviewer_fallback "not approved").approved = true := by
  have h := claim_C10_fallback_keyword_approval "not approved"
  exact h.2.2.2.2 (by decide)

/-- C3 counterexample: with no test command configured (and no quality
command), `run_ci_commands` records `test_passed = some true` in the
summary — the unconfigured check is reported as a pass, not as unknown. -/
theorem claim_C3_counterexample :
    (run_ci_commands
        { build_command := some "python -m py_compile app.py"
          test_command := none
          quality_command := none
          working_directory := "." }
        (fun _ => (0, "", ""))).summary.test_passed = some true := by
  rfl

/-- C3 amended: an unconfigured syntax or test check is recorded as a pass
(`some true`) in the summary — never as unknown — while an unconfigured
quality check is recorded as unknown (`none`). -/
theorem claim_C3_unconfigured_check_is_pass (cmds : CICommands)
    (exec : String → Int × String × String) :
    (truthyS cmds.test_command = false →
      (run_ci_commands cmds exec).summary.test_passed = some true) ∧
    (truthyS cmds.build_command = false →
      (run_ci_commands cmds exec).summary.build_passed = some true) ∧
    (truthyS cmds.quality_command = false →
      (run_ci_commands cmds exec).summary.quality_passed = none) := by
  refine ⟨fun h => ?_, fun h => ?_, fun h => ?_⟩ <;>
    simp [run_ci_commands, run_ci_summary, runCheck_not_configured _ exec h]

/-- C3 amended witness: evaluated on a command set with only a syntax
command configured. -/
theorem claim_C3_unconfigured_check_is_pass_witness :
    (run_ci_commands
        { build_command := some "tsc --noEmit"
          test_command := none
          quality_command := none
          working_directory := "." }
        (fun _ => (1, "", "boom"))).summary.test_passed = some true := by
  exact (claim_C3_unconfigured_check_is_pass _ _).1 (by decide)

/-! ## Test detection and CI command resolution
(`check_tests_exist`, `determine_ci_commands`,
`determine_ci_commands_heuristic`, src/main.py lines 1153-1420) -/

/-- One entry of the flat repository listing: `{'path': …, 'type': …}`
with `type` being `"file"` or `"directory"`. -/
structure RepoFile where
  path : String
  ftype : String
deriving Repr, DecidableEq

/-- Python `key in dict` over the key-files mapping (manifest name to
content), modelled as an association list. -/
def hasKey (kf : List (String × String)) (k : String) : Bool :=
  (kf.lookup k).isSome

def test_patterns : List String :=
  ["test", "tests", "spec", "specs", "__test__", "__tests__",
   "test_", "_test", ".test.", ".spec."]

def test_config_files : List String :=
  ["pytest.ini", "tox.ini", "jest.config.js", "jest.config.ts",
   "vitest.config.js", "vitest.config.ts", ".mocharc.js", ".mocharc.json"]

/-- Function `check_tests_exist` (src/main.py lines 1153-1190): test-named
directories or files, an npm test script, or a known test config file. -/
def check_tests_exist (files : List RepoFile) (key_files : List (String × String)) :
    Bool :=
  let test_dirs := files.filter (fun f => f.ftype == "directory" &&
    test_patterns.any (fun p => containsSubstr (pyLower f.path) p))
  let test_files := files.filter (fun f => f.ftype == "file" &&
    test_patterns.any (fun p => containsSubstr (pyLower f.path) p))
  let pkg_hit :=
    match key_files.lookup "package.json" with
    | some content =>
        containsSubstr (pyLower content) "test" ||
        containsSubstr content "\x22test\x22"
    | none => false
  if pkg_hit then true
  else
    let has_test_config := test_config_files.any (fun config =>
      files.any (fun f => f.ftype == "file" && pyEndsWith f.path config))
    !test_dirs.isEmpty || !test_files.isEmpty || has_test_config

def pythonSyntaxCheckCmd : String :=
  "find . -name \"*.py\" -type f -exec python -m py_compile \x7b\x7d + || python -c \"import ast, sys; [ast.parse(open(f).read(), f) for f in sys.argv[1:]]\" $(find . -name \"*.py\" -type f)"

def nodeSyntaxCheckCmd : String :=
  "find . -name \"*.js\" -type f -exec node --check \x7b\x7d + || true"

/-- Function `determine_ci_commands_heuristic` (src/main.py lines 1347-1420): the
static per-ecosystem table; a test command is only ever set under
`has_tests`. -/
def determine_ci_commands_heuristic (key_files : List (String × String))
    (files : List RepoFile) (has_tests : Bool) : CICommands :=
  let base : CICommands :=
    { build_command := none, test_command := none, quality_command := none
      working_directory := "." }
  let commands :=
    if hasKey key_files "requirements.txt" || hasKey key_files "setup.py" ||
       hasKey key_files "pyproject.toml" then
      { base with
        build_command := some pythonSyntaxCheckCmd
        test_command :=
          if has_tests then
            if files.any (fun f => f.ftype == "file" &&
                (containsSubstr (pyLower f.path) "pytest" ||
                 containsSubstr f.path "pytest.ini")) then
              some "pytest"
            else if files.any (fun f => f.ftype == "file" &&
                containsSubstr (pyLower f.path) "test") then
              some "python -m unittest discover"
            else none
          else none
        quality_command := some "pylint . || true" }
    else if hasKey key_files "package.json" then
      { base with
        build_command := some nodeSyntaxCheckCmd
        test_command := if has_tests then some "npm test" else none
        quality_command := some "npm run lint || true" }
    else if files.any (fun f => f.ftype == "file" &&
        pyEndsWith f.path "tsconfig.json") then
      { base with
        build_command := some "tsc --noEmit"
        test_command := if has_tests then some "npm test" else none
        quality_command := some "npm run lint || true" }
    else if hasKey key_files "pom.xml" then
      { base with
        build_command := some "mvn validate || mvn compiler:compile -DskipTests || true"
        test_command := if has_tests then some "mvn test" else none
        quality_command := some "mvn checkstyle:check || true" }
    else if hasKey key_files "build.gradle" then
      { base with
        build_command := some "./gradlew compileJava --dry-run || ./gradlew compileJava -x test || true"
        test_command := if has_tests then some "./gradlew test" else none
        quality_command := some "./gradlew check || true" }
    else if hasKey key_files "Cargo.toml" then
      { base with
        build_command := some "cargo check"
        test_command := if has_tests then some "cargo test" else none
        quality_command := some "cargo clippy || true" }
    else if hasKey key_files "go.mod" then
      { base with
        build_command := some "go build -o /dev/null ./... || go vet ./..."
        test_command := if has_tests then some "go test ./..." else none
        quality_command := some "golangci-lint run || true" }
    else base
  if files.any (fun f => f.path == "Makefile") && has_tests &&
     commands.test_command == none then
    { commands with test_command := some "make test" }
  else commands

/-- The structured result the language model returns in phase 1 of
`determine_ci_commands` (keys of the expected JSON object). -/
structure ParsedCommands where
  syntax_check_command : Option String
  build_command : Option String
  test_command : Option String
  quality_command : Option String
  working_directory : Option String
deriving Repr, DecidableEq

/-- The post-processing of a successfully parsed phase-1 result
(src/main.py lines 1306-1334): rename the syntax-check key, fall back to
the heuristic when no syntax command was produced, and force
`test_command` to null when no tests were detected. -/
def determine_ci_commands_from_parsed (parsed : ParsedCommands)
    (key_files : List (String × String)) (files : List RepoFile)
    (has_tests : Bool) : CICommands :=
  let renamed : CICommands :=
    if truthyS parsed.syntax_check_command then
      { build_command := parsed.syntax_check_command
        test_command := parsed.test_command
        quality_command := parsed.quality_command
        working_directory := parsed.working_directory.getD "." }
    else if !truthyS parsed.build_command then
      determine_ci_commands_heuristic key_files files has_tests
    else
      { build_command := parsed.build_command
        test_command := parsed.test_command
        quality_command := parsed.quality_command
        working_directory := parsed.working_directory.getD "." }
  let corrected := if !has_tests then { renamed with test_command := none } else renamed
  if truthyS corrected.test_command && !has_tests then
    { corrected with test_command := none }
  else corrected

/-- Function `determine_ci_commands` after the repository structure has been read:
a JSON parse failure falls back to the heuristic, a parse success goes
through the phase-1 post-processing. -/
def determine_ci_commands (parse_result : Option ParsedCommands)
    (key_files : List (String × String)) (files : List RepoFile)
    (has_tests : Bool) : CICommands :=
  match parse_result with
  | some parsed => determine_ci_commands_from_parsed parsed key_files files has_tests
  | none => determine_ci_commands_heuristic key_files files has_tests

theorem heuristic_no_tests_no_test_command (key_files : List (String × String))
    (files : List RepoFile) :
    (determine_ci_commands_heuristic key_files files false).test_command = none := by
  unfold determine_ci_commands_heuristic
  simp only [Bool.and_false, Bool.false_and, Bool.and_self, if_false,
    Bool.false_eq_true, ite_false]
  split_ifs <;> rfl

/-- C9: when no test indicators are detected (`check_tests_exist` is
false), the resolved command set has a null `test_command` in both the
phase-1 (parsed inference) path and the heuristic fallback path. -/
theorem claim_C9_no_tests_null_test_command (parsed : ParsedCommands)
    (key_files : List (String × String)) (files : List RepoFile)
    (h : check_tests_exist files key_files = false) :
    (determine_ci_commands_from_parsed parsed key_files files
        (check_tests_exist files key_files)).test_command = none ∧
    (determine_ci_commands_heuristic key_files files
        (check_tests_exist files key_files)).test_command = none := by
  rw [h]
  refine ⟨?_, heuristic_no_tests_no_test_command key_files files⟩
  unfold determine_ci_commands_from_parsed
  simp

/-- C9 witness: a Python repository with a single non-test file and no
test configuration. -/
theorem claim_C9_no_tests_null_test_command_witness :
    check_tests_exist [⟨"main.py", "file"⟩] [("requirements.txt", "flask")] = false ∧
    (determine_ci_commands_from_parsed
        ⟨some "python -m py_compile main.py", none, some "pytest", none, none⟩
        [("requirements.txt", "flask")] [⟨"main.py", "file"⟩]
        (check_tests_exist [⟨"main.py", "file"⟩] [("requirements.txt", "flask")])).test_command = none := by
  refine ⟨by decide, ?_⟩
  exact (claim_C9_no_tests_null_test_command _ _ _ (by decide)).1

/-! ## Per-file fix application
(the file loop of `auto_fix_and_create_pr_with_review`,
src/main.py lines 434-502) -/

/-- The external responses one file's processing can observe.
`write2_status` is the status a second (retry) write would have returned;
the source never issues a second write, the field exists so that the
claimed retry behaviour can be stated and compared. -/
structure FileWriteEnv where
  base_content : Option String
  fix : String → Except String String
  branch_file : Option (String × String)
  branch_check_error : Bool
  write1_status : Nat
  write2_status : Nat

/-- What one pass of the file loop did: whether the file landed in
`fixed_files` or `failed_files`, which content was passed to `fix_code`,
which sha accompanied the write, and how many write attempts were made. -/
structure FileProcessResult where
  fixed : Bool
  error : Option String
  content_sent_to_fix : Option String
  sha_included : Option String
  write_attempts : Nat
deriving Repr, DecidableEq

/-- The sha attached to the write: the branch file's sha when present and
truthy (`if file_sha: update_data['sha'] = file_sha`). -/
def sha_for_write : Option (String × String) → Option String
  | some (_, s) => if s.isEmpty then none else some s
  | none => none

/-- One iteration of the file loop (src/main.py lines 434-502): read the
file from the *default* branch, call `fix_code` on that content, look up
the file's sha on the fix branch (404 means create-new), and issue a
single write; any non-2xx write raises and the file is recorded as failed
with no retry. -/
def process_file (env : FileWriteEnv) : FileProcessResult :=
  match env.base_content with
  | none =>
    { fixed := false, error := some "Не удалось получить файл"
      content_sent_to_fix := none, sha_included := none, write_attempts := 0 }
  | some current_code =>
    match env.fix current_code with
    | .error e =>
      { fixed := false, error := some e
        content_sent_to_fix := some current_code, sha_included := none
        write_attempts := 0 }
    | .ok _fixed_code =>
      if env.branch_check_error then
        { fixed := false, error := some "Не удалось проверить файл в ветке"
          content_sent_to_fix := some current_code, sha_included := none
          write_attempts := 0 }
      else if env.write1_status = 200 ∨ env.write1_status = 201 then
        { fixed := true, error := none
          content_sent_to_fix := some current_code
          sha_included := sha_for_write env.branch_file, write_attempts := 1 }
      else
        { fixed := false, error := some "Не удалось обновить файл"
          content_sent_to_fix := some current_code
          sha_included := sha_for_write env.branch_file, write_attempts := 1 }

/-- Modelled from the spec: the read the claim describes — current content
from the fix branch, falling back to the base branch when the file does
not yet exist there. -/
def claimed_read_content (env : FileWriteEnv) : Option String :=
  match env.branch_file with
  | some (content, _) => some content
  | none => env.base_content

/-- C5 counterexample: a write that fails with an optimistic-concurrency
conflict (HTTP 409) — although a retry would have succeeded — is recorded
as failed after a single write attempt; no re-read-and-retry happens. -/
theorem claim_C5_counterexample :
    (process_file
        { base_content := some "old code"
          fix := fun _ => .ok "new code"
          branch_file := some ("branch code", "abc123")
          branch_check_error := false
          write1_status := 409
          write2_status := 200 }).write_attempts = 1 ∧
    (process_file
        { base_content := some "old code"
          fix := fun _ => .ok "new code"
          branch_file := some ("branch code", "abc123")
          branch_check_error := false
          write1_status := 409
          write2_status := 200 }).fixed = false := by
  exact ⟨rfl, rfl⟩

/-- C5 amended: every write carries the branch file's sha when the file
exists on the branch (with a truthy sha); at most one write attempt is
ever made; and any failing write status immediately records the file as
failed — a conflict is not retried. -/
theorem claim_C5_single_write_attempt (env : FileWriteEnv) :
    (process_file env).write_attempts ≤ 1 ∧
    (∀ content sha, env.branch_file = some (content, sha) → sha.isEmpty = false →
      (process_file env).write_attempts = 1 →
      (process_file env).sha_included = some sha) ∧
    (¬(env.write1_status = 200 ∨ env.write1_status = 201) →
      (process_file env).fixed = false) := by
  rcases hb : env.base_content with _ | current
  · refine ⟨?_, fun c s hbf hs hw => ?_, fun _ => ?_⟩ <;>
      simp_all [process_file, hb]
  · rcases hfix : env.fix current with e | fc
    · refine ⟨?_, fun c s hbf hs hw => ?_, fun _ => ?_⟩ <;>
        simp_all [process_file, hb, hfix]
    · rcases hbc : env.branch_check_error with _ | _
      · by_cases hw1 : env.write1_status = 200 ∨ env.write1_status = 201 <;>
          refine ⟨?_, fun c s hbf hs hw => ?_, fun hne => ?_⟩ <;>
            simp_all [process_file, hb, hfix, hbc, sha_for_write]
      · refine ⟨?_, fun c s hbf hs hw => ?_, fun _ => ?_⟩ <;>
          simp_all [process_file, hb, hfix, hbc]

/-- C5 amended witness: a successful single write carrying the branch sha. -/
theorem claim_C5_single_write_attempt_witness :
    (process_file
        { base_content := some "a"
          fix := fun s => .ok s
          branch_file := some ("b", "sha9")
          branch_check_error := false
          write1_status := 200
          write2_status := 200 }).sha_included = some "sha9" := by
  exact (claim_C5_single_write_attempt _).2.1 "b" "sha9" rfl (by decide) rfl

/-- C6 counterexample: the file exists on the fix branch with content
"branch version", yet the content handed to `fix_code` is the default
branch's "base version" — iteration k+1 does not build on iteration k's
committed content. -/
theorem claim_C6_counterexample :
    (process_file
        { base_content := some "base version"
          fix := fun s => .ok s
          branch_file := some ("branch version", "sha1")
          branch_check_error := false
          write1_status := 200
          write2_status := 200 }).content_sent_to_fix = some "base version" ∧
    claimed_read_content
        { base_content := some "base version"
          fix := fun s => .ok s
          branch_file := some ("branch version", "sha1")
          branch_check_error := false
          write1_status := 200
          write2_status := 200 } = some "branch version" ∧
    ("base version" : String) ≠ "branch version" := by
  exact ⟨rfl, rfl, by decide⟩

/-- C6 amended: whenever the default-branch read succeeds, the content
passed to `fix_code` is exactly the default branch's content, regardless
of what the file holds on the fix branch. -/
theorem claim_C6_fix_input_is_base_content (env : FileWriteEnv) (c : String)
    (h : env.base_content = some c) :
    (process_file env).content_sent_to_fix = some c := by
  rcases hfix : env.fix c with e | fc
  · simp [process_file, h, hfix]
  · rcases hbc : env.branch_check_error with _ | _
    · by_cases hw1 : env.write1_status = 200 ∨ env.write1_status = 201 <;>
        simp [process_file, h, hfix, hbc, hw1]
    · simp [process_file, h, hfix, hbc]

/-- C6 amended witness. -/
theorem claim_C6_fix_input_is_base_content_witness :
    (process_file
        { base_content := some "x"
          fix := fun s => .ok s
          branch_file := none
          branch_check_error := false
          write1_status := 201
          write2_status := 201 }).content_sent_to_fix = some "x" := by
  exact claim_C6_fix_input_is_base_content _ "x" rfl

/-! ## Change-proposal creation (`create_pr_from_branch`,
src/github/branches.py lines 55-243) -/

/-- The hosting-platform responses `create_pr_from_branch` can observe. -/
structure PRCreateEnv where
  pr_number_arg : Option Nat
  get_existing_ok : Bool
  existing_pr : Nat × String
  branch_exists : Bool
  create_branch_status : Nat
  post_status : Nat
  post_payload : Option (Nat × String)
  list_open_ok : Bool
  open_prs : List (Nat × String)
  list_all_ok : Bool
  all_prs : List (Nat × String)
deriving Repr, DecidableEq

/-- Function `create_pr_from_branch`: reuse a passed-in proposal number, otherwise
ensure the branch exists, POST the proposal, and on a 422 conflict fetch
and return the existing proposal for the branch (open first, then any
state); every unrecoverable outcome raises. -/
def create_pr_from_branch (env : PRCreateEnv) : Except String (Nat × String) :=
  let reuse : Option (Nat × String) :=
    match env.pr_number_arg with
    | some _ => if env.get_existing_ok then some env.existing_pr else none
    | none => none
  match reuse with
  | some pr => .ok pr
  | none =>
    if !env.branch_exists &&
       !(env.create_branch_status = 201 ∨ env.create_branch_status = 422 : Bool) then
      .error "Не удалось создать ветку"
    else if env.post_status = 201 then
      match env.post_payload with
      | some pr => .ok pr
      | none => .error "Не удалось распарсить ответ при создании PR"
    else if env.post_status = 422 then
      if !env.branch_exists then
        .error "Ветка не существует"
      else
        match (if env.list_open_ok then env.open_prs else []) with
        | pr :: _ => .ok pr
        | [] =>
          match (if env.list_all_ok then env.all_prs else []) with
          | pr :: _ => .ok pr
          | [] => .error "PR уже существует (статус 422), но не удалось его получить"
    else
      .error "Не удалось создать PR"

/-! ## The orchestration loop (`auto_fix_and_create_pr_with_review`,
src/main.py lines 303-719) -/

/-- The `{'summary': {None, None, None}}` placeholder substituted when
`run_ci_commands` reports failure (src/main.py line 548). -/
def emptySummary : CISummary :=
  { build_passed := none, test_passed := none, quality_passed := none }

/-- The external responses one loop iteration can observe. -/
structure IterEnv where
  files_success : Bool
  files_error : String
  files : List String
  auth_ok : Bool
  repo_ok : Bool
  branch_setup_ok : Bool
  file_env : String → FileWriteEnv
  pr_create : Option (Nat × String)
  ci_after_success : Bool
  ci_after_summary : CISummary
  reviewer : ReviewResult
  refined_spec : String

/-- The structured terminal result of `auto_fix_and_create_pr_with_review`. -/
structure RunResult where
  success : Bool
  error : Option String
  pr_number : Option Nat
  iteration : Nat
  fixed_files : List String
deriving Repr, DecidableEq

/-- What one iteration does to the loop: terminate with a result, or go
around again carrying the (possibly refined) spec and the proposal number. -/
inductive IterStep where
  | finished (r : RunResult)
  | next (new_spec : String) (new_pr : Option Nat)
deriving Repr, DecidableEq

/-- One iteration's observable behaviour. -/
structure IterOutcome where
  step : IterStep
  reviewer_called : Bool
  review_used : Option ReviewResult
  pr_create_attempted : Bool
  fixes_attempted : Bool
  fixed_files : List String
deriving Repr, DecidableEq

/-- The rejecting verdict synthesized on a CI mismatch
(src/main.py lines 556-563). -/
def synth_reject (cim : CIMatchResult) : ReviewResult :=
  { success := true
    approved := false
    reason := "Результаты CI не совпадают: " ++ cim.reason
    issues := cim.issues
    recommendations := cim.recommendations }

/-- Steps 10-11 of the iteration (src/main.py lines 550-583): on a CI
mismatch synthesize a rejection and skip the reviewer; otherwise call the
reviewer, with the (unreachable) post-hoc mismatch re-check of lines
578-583.  The first component records whether the reviewer was called. -/
def review_step (cim : CIMatchResult) (reviewer : ReviewResult) :
    Bool × ReviewResult :=
  if !cim.matched then
    (false, synth_reject cim)
  else
    (true,
      if reviewer.success && reviewer.approved && !cim.matched then
        { reviewer with
          approved := false
          reason := "Автоматическое отклонение: " ++ cim.reason }
      else reviewer)

/-- One iteration of `auto_fix_and_create_pr_with_review` (the body of the
`while` loop, src/main.py lines 328-713): file selection with its empty
cases, token/repo/branch errors caught by the iteration's `except` clause,
the per-file fix loop, PR creation only on iteration 1, CI after, the CI
comparison with synthetic rejection, and the decision. -/
def iter_body (ci_before : CISummary) (max_iterations : Nat) (env : IterEnv)
    (iteration : Nat) (pr_number : Option Nat) (current_spec : String) :
    IterOutcome :=
  if !env.files_success then
    { step := .finished
        { success := false
          error := some ("Не удалось определить файлы: " ++ env.files_error)
          pr_number := none, iteration := iteration, fixed_files := [] }
      reviewer_called := false, review_used := none
      pr_create_attempted := false, fixes_attempted := false, fixed_files := [] }
  else if env.files.isEmpty then
    if iteration = 1 then
      { step := .finished
          { success := false
            error := some "Не удалось определить файлы для изменения из технического задания"
            pr_number := none, iteration := iteration, fixed_files := [] }
        reviewer_called := false, review_used := none
        pr_create_attempted := false, fixes_attempted := false, fixed_files := [] }
    else
      { step := .next current_spec pr_number
        reviewer_called := false, review_used := none
        pr_create_attempted := false, fixes_attempted := false, fixed_files := [] }
  else if !env.auth_ok || !env.repo_ok || !env.branch_setup_ok then
    if iteration ≥ max_iterations then
      { step := .finished
          { success := false, error := some "Ошибка на итерации"
            pr_number := none, iteration := iteration, fixed_files := [] }
        reviewer_called := false, review_used := none
        pr_create_attempted := false, fixes_attempted := false, fixed_files := [] }
    else
      { step := .next current_spec pr_number
        reviewer_called := false, review_used := none
        pr_create_attempted := false, fixes_attempted := false, fixed_files := [] }
  else
    let fixed_files := env.files.filter (fun p => (process_file (env.file_env p)).fixed)
    if fixed_files.isEmpty then
      if iteration < max_iterations then
        { step := .next current_spec pr_number
          reviewer_called := false, review_used := none
          pr_create_attempted := false, fixes_attempted := true, fixed_files := [] }
      else
        { step := .finished
            { success := false, error := some "Не удалось исправить ни одного файла"
              pr_number := none, iteration := iteration, fixed_files := [] }
          reviewer_called := false, review_used := none
          pr_create_attempted := false, fixes_attempted := true, fixed_files := [] }
    else
      let attempt_pr := (iteration == 1) && pr_number.isNone
      let pr1 :=
        if attempt_pr then
          match env.pr_create with
          | some nu => some nu.1
          | none => pr_number
        else pr_number
      let ci_after := if env.ci_after_success then env.ci_after_summary else emptySummary
      let cim := check_ci_results_match ci_before ci_after
      let rv := review_step cim env.reviewer
      if rv.2.success && rv.2.approved then
        { step := .finished
            { success := true, error := none, pr_number := pr1
              iteration := iteration, fixed_files := fixed_files }
          reviewer_called := rv.1, review_used := some rv.2
          pr_create_attempted := attempt_pr, fixes_attempted := true
          fixed_files := fixed_files }
      else if iteration ≥ max_iterations then
        { step := .finished
            { success := false
              error := some "Не удалось получить одобрение Reviewer"
              pr_number := pr1, iteration := iteration, fixed_files := fixed_files }
          reviewer_called := rv.1, review_used := some rv.2
          pr_create_attempted := attempt_pr, fixes_attempted := true
          fixed_files := fixed_files }
      else
        { step := .next env.refined_spec pr1
          reviewer_called := rv.1, review_used := some rv.2
          pr_create_attempted := attempt_pr, fixes_attempted := true
          fixed_files := fixed_files }

/-- The `while iteration < max_iterations` loop, with the remaining
iteration budget as fuel; running out of fuel is the post-loop
"budget exhausted" return (src/main.py lines 715-719). -/
def run_loop_go (ci_before : CISummary) (max_iterations : Nat) (env : Nat → IterEnv) :
    Nat → Nat → Option Nat → String → RunResult
  | 0, _, _, _ =>
    { success := false
      error := some "Достигнуто максимальное количество итераций"
      pr_number := none, iteration := max_iterations, fixed_files := [] }
  | fuel + 1, iteration, pr, cur =>
    match (iter_body ci_before max_iterations (env iteration) iteration pr cur).step with
    | .finished r => r
    | .next s p => run_loop_go ci_before max_iterations env fuel (iteration + 1) p s

/-- Function `auto_fix_and_create_pr_with_review`: run the loop from iteration 1
with no proposal yet and the caller-supplied spec. -/
def run_loop (ci_before : CISummary) (max_iterations : Nat) (env : Nat → IterEnv)
    (initial_spec : String) : RunResult :=
  run_loop_go ci_before max_iterations env max_iterations 1 none initial_spec

theorem review_step_mismatch (cim : CIMatchResult) (r : ReviewResult)
    (h : cim.matched = false) :
    review_step cim r = (false, synth_reject cim) := by
  simp [review_step, h]

/-- Whether a step ends the run with a successful (ACCEPT) result. -/
def step_is_accept : IterStep → Bool
  | .finished r => r.success
  | .next _ _ => false

/-- C1: in any iteration where the CI comparison reports a mismatch, the
reviewer is never called, any verdict reaching the decision is a
synthesized rejection (approved = false, success = true), and the
iteration never terminates the run with success — it refines or fails. -/
theorem claim_C1_regression_blocks_accept (ci_before : CISummary)
    (max_iterations iteration : Nat) (env : IterEnv) (pr : Option Nat)
    (cur : String)
    (h : (check_ci_results_match ci_before
        (if env.ci_after_success then env.ci_after_summary
         else emptySummary)).matched = false) :
    (iter_body ci_before max_iterations env iteration pr cur).reviewer_called = false ∧
    ((iter_body ci_before max_iterations env iteration pr cur).review_used.all
      (fun v => !v.approved && v.success)) = true ∧
    step_is_accept (iter_body ci_before max_iterations env iteration pr cur).step
      = false := by
  have hrs := review_step_mismatch
    (check_ci_results_match ci_before
      (if env.ci_after_success then env.ci_after_summary else emptySummary))
    env.reviewer h
  by_cases h1 : env.files_success
  · by_cases h2 : env.files.isEmpty
    · by_cases h3 : iteration = 1 <;>
        exact ⟨by simp [iter_body, h1, h2, h3, step_is_accept],
               by simp [iter_body, h1, h2, h3],
               by simp [iter_body, h1, h2, h3, step_is_accept]⟩
    · by_cases h4 : (!env.auth_ok || !env.repo_ok || !env.branch_setup_ok) = true
      · by_cases h5 : iteration ≥ max_iterations <;>
          exact ⟨by simp [iter_body, h1, h2, h4, h5, step_is_accept],
                 by simp [iter_body, h1, h2, h4, h5],
                 by simp [iter_body, h1, h2, h4, h5, step_is_accept]⟩
      · by_cases h6 : (env.files.filter
            (fun p => (process_file (env.file_env p)).fixed)).isEmpty
        · by_cases h7 : iteration < max_iterations <;>
            exact ⟨by simp [iter_body, h1, h2, h4, h6, h7, step_is_accept],
                   by simp [iter_body, h1, h2, h4, h6, h7],
                   by simp [iter_body, h1, h2, h4, h6, h7, step_is_accept]⟩
        · by_cases h8 : iteration ≥ max_iterations <;>
            exact ⟨by simp [iter_body, h1, h2, h4, h6, h8, hrs, synth_reject,
                     step_is_accept],
                   by simp [iter_body, h1, h2, h4, h6, h8, hrs, synth_reject],
                   by simp [iter_body, h1, h2, h4, h6, h8, hrs, synth_reject,
                     step_is_accept]⟩
  · exact ⟨by simp [iter_body, h1, step_is_accept],
           by simp [iter_body, h1],
           by simp [iter_body, h1, step_is_accept]⟩

/-- A baseline CI summary with both checks passing. -/
def passPassSummary : CISummary :=
  { build_passed := some true, test_passed := some true, quality_passed := none }

/-- A well-behaved per-file environment used by concrete loop scenarios:
the base read, the fix and the single write all succeed. -/
def okFileEnv : FileWriteEnv :=
  { base_content := some "print(1)"
    fix := fun s => .ok s
    branch_file := none
    branch_check_error := false
    write1_status := 201
    write2_status := 201 }

/-- A scenario iteration in which CI regresses (tests passed before, fail
after) while the reviewer would approve. -/
def regressionIterEnv : IterEnv :=
  { files_success := true
    files_error := ""
    files := ["app.py"]
    auth_ok := true
    repo_ok := true
    branch_setup_ok := true
    file_env := fun _ => okFileEnv
    pr_create := some (5, "https://github.com/o/r/pull/5")
    ci_after_success := true
    ci_after_summary := { build_passed := some true, test_passed := some false
                          quality_passed := none }
    reviewer := { success := true, approved := true, reason := "LGTM"
                  issues := [], recommendations := [] }
    refined_spec := "ТЗ версия 2" }

/-- C1 witness: with tests regressing and an approving reviewer on file,
the iteration still does not accept and never calls the reviewer. -/
theorem claim_C1_regression_blocks_accept_witness :
    (iter_body passPassSummary 3 regressionIterEnv 1 none "ТЗ").reviewer_called
        = false ∧
    step_is_accept (iter_body passPassSummary 3 regressionIterEnv 1 none "ТЗ").step = false := by
  have h := claim_C1_regression_blocks_accept
    passPassSummary
    3 1 regressionIterEnv none "ТЗ" (by decide)
  exact ⟨h.1, h.2.2⟩

/-- C7 counterexample: at iteration 2 an empty file selection makes the
loop continue with the *unchanged* spec — no refined specification version
is produced, although the refinement output "ТЗ версия 2" was available. -/
theorem claim_C7_counterexample :
    (iter_body passPassSummary 5
        { regressionIterEnv with files := [] } 2 none "ТЗ версия 1").step =
      .next "ТЗ версия 1" none ∧
    ({ regressionIterEnv with files := [] } : IterEnv).refined_spec = "ТЗ версия 2" ∧
    ("ТЗ версия 1" : String) ≠ "ТЗ версия 2" := by
  exact ⟨rfl, rfl, by decide⟩

/-- C7 amended: an empty selection on iteration 1 terminates the run with
a failure; on a later iteration the loop proceeds to the next iteration
with the unchanged spec and without attempting any fixes. -/
theorem claim_C7_empty_selection (ci_before : CISummary) (max_iterations : Nat)
    (env : IterEnv) (iteration : Nat) (pr : Option Nat) (cur : String)
    (h1 : env.files_success = true) (h2 : env.files = []) :
    (iteration = 1 →
      (iter_body ci_before max_iterations env iteration pr cur).step =
        .finished
          { success := false
            error := some "Не удалось определить файлы для изменения из технического задания"
            pr_number := none, iteration := iteration, fixed_files := [] }) ∧
    (iteration ≠ 1 →
      (iter_body ci_before max_iterations env iteration pr cur).step = .next cur pr ∧
      (iter_body ci_before max_iterations env iteration pr cur).fixes_attempted
        = false) := by
  constructor
  · intro h3
    simp [iter_body, h1, h2, h3]
  · intro h3
    exact ⟨by simp [iter_body, h1, h2, h3], by simp [iter_body, h1, h2, h3]⟩

/-- C7 amended witness: iteration 1 with an empty selection fails the run. -/
theorem claim_C7_empty_selection_witness :
    (iter_body passPassSummary 5
        { regressionIterEnv with files := [] } 1 none "ТЗ").step =
      .finished
        { success := false
          error := some "Не удалось определить файлы для изменения из технического задания"
          pr_number := none, iteration := 1, fixed_files := [] } := by
  exact (claim_C7_empty_selection _ 5 _ 1 none "ТЗ" rfl rfl).1 rfl

/-- An iteration environment that succeeds end to end: one file fixed, CI
matching, reviewer approving. -/
def approvedIterEnv : IterEnv :=
  { files_success := true
    files_error := ""
    files := ["app.py"]
    auth_ok := true
    repo_ok := true
    branch_setup_ok := true
    file_env := fun _ => okFileEnv
    pr_create := some (7, "https://github.com/o/r/pull/7")
    ci_after_success := true
    ci_after_summary := { build_passed := some true, test_passed := some true
                          quality_passed := none }
    reviewer := { success := true, approved := true, reason := "ok"
                  issues := [], recommendations := [] }
    refined_spec := "ТЗ версия 2" }

/-- C8 counterexample: iteration 1 suffers an authentication failure
(token acquisition raises), yet the run is not aborted — iteration 2 runs
and the run even finishes successfully. -/
theorem claim_C8_counterexample :
    (run_loop passPassSummary 2
        (fun i => if i = 1 then { approvedIterEnv with auth_ok := false }
                  else approvedIterEnv) "ТЗ").success = true ∧
    (run_loop passPassSummary 2
        (fun i => if i = 1 then { approvedIterEnv with auth_ok := false }
                  else approvedIterEnv) "ТЗ").iteration = 2 ∧
    ({ approvedIterEnv with auth_ok := false } : IterEnv).auth_ok = false := by
  exact ⟨rfl, rfl, rfl⟩

/-- C8 amended: an authentication failure is caught by the iteration's
exception handler — the run only terminates (with a failure) when the
error strikes on the final permitted iteration, and otherwise continues
into the next iteration with spec and proposal number unchanged. -/
theorem claim_C8_auth_error_not_fatal (ci_before : CISummary)
    (max_iterations : Nat) (env : IterEnv) (iteration : Nat) (pr : Option Nat)
    (cur : String) (h1 : env.files_success = true) (h2 : env.files ≠ [])
    (h3 : env.auth_ok = false) :
    (iteration ≥ max_iterations →
      (iter_body ci_before max_iterations env iteration pr cur).step =
        .finished
          { success := false, error := some "Ошибка на итерации"
            pr_number := none, iteration := iteration, fixed_files := [] }) ∧
    (iteration < max_iterations →
      (iter_body ci_before max_iterations env iteration pr cur).step =
        .next cur pr) := by
  have h2' : env.files.isEmpty = false := by
    rcases hf : env.files with _ | ⟨p, ps⟩
    · exact absurd hf h2
    · rfl
  constructor
  · intro h5
    simp [iter_body, h1, h2', h3, h5]
  · intro h5
    simp [iter_body, h1, h2', h3, Nat.not_le.mpr h5]

/-- C8 amended witness: an auth failure on iteration 1 of a 3-iteration
budget just moves on to iteration 2. -/
theorem claim_C8_auth_error_not_fatal_witness :
    (iter_body passPassSummary 3
        { approvedIterEnv with auth_ok := false } 1 none "ТЗ").step =
      .next "ТЗ" none := by
  exact (claim_C8_auth_error_not_fatal _ 3 _ 1 none "ТЗ" rfl
    (by decide) rfl).2 (by decide)

/-- An iteration environment whose per-file fix calls all fail. -/
def failFixIterEnv : IterEnv :=
  { approvedIterEnv with
    file_env := fun _ => { okFileEnv with fix := fun _ => .error "Ошибка LLM" } }

/-- C4 counterexample: iteration 1 fixes no file, iteration 2 is the first
to fix one and the run even succeeds — yet no change proposal was ever
created (`pr_number = none`), although creation was available, because the
creation step only runs when `iteration == 1`. -/
theorem claim_C4_counterexample :
    (run_loop passPassSummary 2
        (fun i => if i = 1 then failFixIterEnv else approvedIterEnv)
        "ТЗ").success = true ∧
    (run_loop passPassSummary 2
        (fun i => if i = 1 then failFixIterEnv else approvedIterEnv)
        "ТЗ").pr_number = none ∧
    approvedIterEnv.pr_create = some (7, "https://github.com/o/r/pull/7") := by
  exact ⟨rfl, rfl, rfl⟩

/-- The proposal number a step carries into the next iteration, or reports
on a successful termination. -/
def step_carries_pr : IterStep → Option Nat → Prop
  | .next _ p, pr => p = pr
  | .finished r, pr => r.success = true → r.pr_number = pr

theorem iter_body_attempted_eq (ci_before : CISummary) (mi : Nat)
    (env : IterEnv) (iteration : Nat) (pr : Option Nat) (cur : String)
    (h1 : env.files_success = true)
    (h2 : env.files.isEmpty = false)
    (h4 : (!env.auth_ok || !env.repo_ok || !env.branch_setup_ok) = false)
    (h6 : (env.files.filter
      (fun p => (process_file (env.file_env p)).fixed)).isEmpty = false) :
    (iter_body ci_before mi env iteration pr cur).pr_create_attempted =
      ((iteration == 1) && pr.isNone) := by
  simp only [iter_body, h1, h2, h4, h6, Bool.not_true, Bool.false_eq_true,
    if_false, Bool.false_or, Bool.or_self]
  split_ifs <;> rfl

/-- C4 amended: proposal creation is attempted only on iteration 1 with no
proposal recorded yet; once a proposal number is recorded it is carried
unchanged (never re-created) into later iterations and into a successful
result; and a 422 conflict on creation returns the existing open
proposal's number and URL.  (As the counterexample shows, a run whose
iteration 1 fixes nothing never creates a proposal at all.) -/
theorem claim_C4_single_proposal (ci_before : CISummary) (mi : Nat)
    (env : IterEnv) (iteration : Nat) (pr : Option Nat) (cur : String)
    (penv : PRCreateEnv) (n : Nat) (u : String) (rest : List (Nat × String)) :
    ((iter_body ci_before mi env iteration pr cur).pr_create_attempted = true →
      iteration = 1 ∧ pr = none) ∧
    (pr.isSome = true →
      (iter_body ci_before mi env iteration pr cur).pr_create_attempted = false ∧
      step_carries_pr (iter_body ci_before mi env iteration pr cur).step pr) ∧
    (penv.pr_number_arg = none → penv.branch_exists = true →
      penv.post_status = 422 → penv.list_open_ok = true →
      penv.open_prs = (n, u) :: rest →
      create_pr_from_branch penv = .ok (n, u)) := by
  refine ⟨?_, ?_, ?_⟩
  · intro hatt
    rcases h1 : env.files_success with _ | _
    · simp [iter_body, h1] at hatt
    · rcases h2 : env.files.isEmpty with _ | _
      · rcases h4 : (!env.auth_ok || !env.repo_ok || !env.branch_setup_ok)
          with _ | _
        · rcases h6 : (env.files.filter
              (fun p => (process_file (env.file_env p)).fixed)).isEmpty
            with _ | _
          · rw [iter_body_attempted_eq ci_before mi env iteration pr cur
              h1 h2 h4 h6] at hatt
            simpa using hatt
          · by_cases h7 : iteration < mi <;>
              simp [iter_body, h1, h2, h4, h6, h7] at hatt
        · by_cases h5 : iteration ≥ mi <;>
            simp [iter_body, h1, h2, h4, h5] at hatt
      · by_cases h3 : iteration = 1 <;> simp [iter_body, h1, h2, h3] at hatt
  · intro hsome
    rcases pr with _ | n0
    · simp at hsome
    constructor
    · rcases h1 : env.files_success with _ | _
      · simp [iter_body, h1]
      · rcases h2 : env.files.isEmpty with _ | _
        · rcases h4 : (!env.auth_ok || !env.repo_ok || !env.branch_setup_ok)
            with _ | _
          · rcases h6 : (env.files.filter
                (fun p => (process_file (env.file_env p)).fixed)).isEmpty
              with _ | _
            · rw [iter_body_attempted_eq ci_before mi env iteration (some n0)
                cur h1 h2 h4 h6]
              simp
            · by_cases h7 : iteration < mi <;>
                simp [iter_body, h1, h2, h4, h6, h7]
          · by_cases h5 : iteration ≥ mi <;>
              simp [iter_body, h1, h2, h4, h5]
        · by_cases h3 : iteration = 1 <;> simp [iter_body, h1, h2, h3]
    · rcases h1 : env.files_success with _ | _
      · simp [iter_body, h1, step_carries_pr]
      · rcases h2 : env.files.isEmpty with _ | _
        · rcases h4 : (!env.auth_ok || !env.repo_ok || !env.branch_setup_ok)
            with _ | _
          · rcases h6 : (env.files.filter
                (fun p => (process_file (env.file_env p)).fixed)).isEmpty
              with _ | _
            · by_cases h8 : ((review_step (check_ci_results_match ci_before
                  (if env.ci_after_success then env.ci_after_summary
                   else emptySummary)) env.reviewer).2.success &&
                  (review_step (check_ci_results_match ci_before
                    (if env.ci_after_success then env.ci_after_summary
                     else emptySummary)) env.reviewer).2.approved) = true <;>
                by_cases h9 : iteration ≥ mi <;>
                  simp [iter_body, h1, h2, h4, h6, h8, h9, step_carries_pr]
            · by_cases h7 : iteration < mi <;>
                simp [iter_body, h1, h2, h4, h6, h7, step_carries_pr]
          · by_cases h5 : iteration ≥ mi <;>
              simp [iter_body, h1, h2, h4, h5, step_carries_pr]
        · by_cases h3 : iteration = 1 <;>
            simp [iter_body, h1, h2, h3, step_carries_pr]
  · intro ha hb hc hd he
    simp [create_pr_from_branch, ha, hb, hc, hd, he]

/-- C4 amended witness: a 422 conflict with an open proposal on the branch
returns that proposal's number and URL. -/
theorem claim_C4_single_proposal_witness :
    create_pr_from_branch
      { pr_number_arg := none, get_existing_ok := true, existing_pr := (1, "e")
        branch_exists := true, create_branch_status := 201, post_status := 422
        post_payload := none, list_open_ok := true
        open_prs := [(9, "https://github.com/o/r/pull/9")], list_all_ok := true
        all_prs := [] } = .ok (9, "https://github.com/o/r/pull/9") := by
  exact (claim_C4_single_proposal passPassSummary 1 approvedIterEnv 1 none "ТЗ"
    _ 9 "https://github.com/o/r/pull/9" []).2.2 rfl rfl rfl rfl rfl

end CodeAgent
